import Mathlib

/-!
Verification of the agent-insights-hub stage pipeline: a shallow embedding
of the filter-extraction, filter-expression building, retrieval, generation,
tracing and stage-handler logic, with theorems settling the frozen claims.

External effects (OpenAI embedding/completion calls, the Pinecone query,
the Handit tracing backend, JSON.parse) are modelled as explicit "world"
parameters carrying each call's outcome; a thrown JS exception is an
`Except.error`.  Stage handlers become total functions from the world and
the input payload to the payload emitted downstream, with the try/catch
structure translated branch by branch.
-/

deriving instance DecidableEq for Except

namespace AgentHub

/-- JS `needle ⊆ hay` substring test on character lists. -/
def listContainsSub (needle : List Char) : List Char → Bool
  | [] => needle.isEmpty
  | c :: t => needle.isPrefixOf (c :: t) || listContainsSub needle t

/-- JS `hay.includes(needle)` (both already in the case the caller wants). -/
def strIncludes (hay needle : String) : Bool :=
  listContainsSub needle.data hay.data

/-- JS `s.toLowerCase()` (ASCII-faithful, as Lean's `Char.toLower`). -/
def jsToLower (s : String) : String :=
  ⟨s.data.map Char.toLower⟩

/-- The environment keywords, in the declared scan order of
`extractMetadataFilters` in `src/scripts/metadata-filters.ts`. -/
def environments : List String := ["production", "development", "staging", "test"]

/-- The status keywords, in the declared scan order. -/
def statuses : List String := ["success", "failed", "error", "pending"]

/-- A JS `for (k of keys) if (lq.includes(k)) filters.f = k` loop: the field
ends up holding the last keyword of `keys` (in list order) contained in
`lq`, or stays unset. -/
def scanKeywords (lq : String) (keys : List String) : Option String :=
  keys.foldl (fun acc k => if strIncludes lq k then some k else acc) none

/-- The metadata-filter record produced by `extractMetadataFilters`
(`src/scripts/metadata-filters.ts`): each field is a JS object key that may
be absent. -/
structure MetadataFilters where
  environment : Option String := none
  status : Option String := none
  is_correct : Option Bool := none
deriving Repr, DecidableEq

/-- `extractMetadataFilters(query)` from `src/scripts/metadata-filters.ts`
(the identical copy lives in `src/scripts/test-filter-queries.ts`): scans
the lowercased query for environment and status keywords (each loop has no
break, so later keywords overwrite earlier ones), then sets `is_correct`
from the correctness keywords — note the `includes('correct')` test runs
first and also matches the substring inside "incorrect"; returns `null` when
no field was set. -/
def extractMetadataFilters (query : String) : Option MetadataFilters :=
  let lq := jsToLower query
  let env := scanKeywords lq environments
  let st := scanKeywords lq statuses
  let ic : Option Bool :=
    if strIncludes lq "correct" then some true
    else if strIncludes lq "incorrect" || strIncludes lq "wrong" then some false
    else none
  if env.isSome || st.isSome || ic.isSome then
    some { environment := env, status := st, is_correct := ic }
  else
    none

/-- The regex `\d{4}-\d{2}-\d{2}` tested at the head of a character list:
on success returns the ten matched characters as a string. -/
def isoAt : List Char → Option String
  | a :: b :: c :: d :: h1 :: e :: f :: h2 :: g :: i :: _ =>
    if a.isDigit && b.isDigit && c.isDigit && d.isDigit && h1 = '-' &&
       e.isDigit && f.isDigit && h2 = '-' && g.isDigit && i.isDigit then
      some ⟨[a, b, c, d, h1, e, f, h2, g, i]⟩
    else none
  | _ => none

/-- JS `query.match(/(\d{4}-\d{2}-\d{2})/)`: the leftmost match of the
exact-date pattern, scanning start positions left to right. -/
def firstIso : List Char → Option String
  | [] => none
  | c :: t => match isoAt (c :: t) with
    | some s => some s
    | none => firstIso t

/-- A JS word character (`\w` = `[A-Za-z0-9_]`), used for `\b` boundaries. -/
def isWordChar (c : Char) : Bool :=
  c.isAlpha || c.isDigit || c = '_'

/-- The regex `\b(20\d{2})\b` tested at the head of `l`, with `prev` the
character just before the current position (`none` at the string start):
yields the year value `parseInt` would produce. -/
def yearAt (prev : Option Char) (l : List Char) : Option Nat :=
  match l with
  | '2' :: '0' :: d1 :: d2 :: rest =>
    if d1.isDigit && d2.isDigit &&
       (match prev with | none => true | some p => !isWordChar p) &&
       (match rest with | [] => true | c :: _ => !isWordChar c) then
      some (2000 + 10 * (d1.toNat - 48) + (d2.toNat - 48))
    else none
  | _ => none

/-- JS `query.match(/\b(20\d{2})\b/)`: leftmost boundary-delimited year. -/
def firstYearAux (prev : Option Char) : List Char → Option Nat
  | [] => none
  | c :: t => match yearAt prev (c :: t) with
    | some y => some y
    | none => firstYearAux (some c) t

/-- Leftmost `\b(20\d{2})\b` match in a string. -/
def firstYear (s : String) : Option Nat :=
  firstYearAux none s.data

/-- The month-name list of `extractDateFilters`, in declared order. -/
def monthNames : List String :=
  ["january", "february", "march", "april", "may", "june",
   "july", "august", "september", "october", "november", "december"]

/-- The month loop of `extractDateFilters`: the first month name (in list
order, 1-based) contained in the lowercased query. -/
def firstMonth (lq : String) : Option Nat :=
  (monthNames.findIdx? (fun m => strIncludes lq m)).map (· + 1)

/-- The current-clock values the relative-date branches of
`extractDateFilters` derive from `new Date()`: today's ISO date string,
yesterday's, and the date seven days back (start of "last week"). The date
arithmetic itself lives in the JS `Date` library, outside the program, so
the three derived strings are taken as an explicit parameter. -/
structure Clock where
  todayStr : String
  yesterdayStr : String
  lastWeekStartStr : String
deriving Repr, DecidableEq

/-- The date-filter object produced by `extractDateFilters`: every field is
a JS object key that may be absent (`day` is never set by the extractor but
is read by the Retrieve stage's filter builder). -/
structure DateFilters where
  date_str : Option String := none
  month : Option Nat := none
  year : Option Nat := none
  day : Option Nat := none
  dateRange : Option (String × String) := none
deriving Repr, DecidableEq

/-- `extractDateFilters(query)` from `src/scripts/metadata-filters.ts`:
tries, in order, the exact-date regex (returning only `date_str`),
"yesterday", "today" (each returning only the corresponding clock date),
"last week" (returning only a `dateRange`), a month name (returning `month`
plus `year` when the year regex also matches), a bare year, and otherwise
returns `null`; every branch returns immediately. -/
def extractDateFilters (clock : Clock) (query : String) : Option DateFilters :=
  match firstIso query.data with
  | some d => some { date_str := some d }
  | none =>
    if strIncludes (jsToLower query) "yesterday" then
      some { date_str := some clock.yesterdayStr }
    else if strIncludes (jsToLower query) "today" then
      some { date_str := some clock.todayStr }
    else if strIncludes (jsToLower query) "last week" then
      some { dateRange := some (clock.lastWeekStartStr, clock.todayStr) }
    else
      match firstMonth (jsToLower query) with
      | some m => some { month := some m, year := firstYear query }
      | none =>
        match firstYear query with
        | some y => some { year := some y }
        | none => none

/-- A date predicate in the composed Pinecone filter: either an equality on
`date_str` or the interval `{$gte: start, $lte: end}` built from a range. -/
inductive DatePred where
  | eq (d : String)
  | between (ge le : String)
deriving Repr, DecidableEq

/-- The filter object returned by `buildFilterExpression` in
`src/scripts/metadata-filters.ts`: one key per possible predicate, each an
equality on its field except `date_str`, which may be interval-valued.
Pinecone treats the co-present keys of one filter object conjunctively. -/
structure FilterExpr where
  date_str : Option DatePred := none
  month : Option Nat := none
  year : Option Nat := none
  day : Option Nat := none
  environment : Option String := none
  status : Option String := none
  is_correct : Option Bool := none
deriving Repr, DecidableEq

/-- `buildFilterExpression(dateFilters, metadataFilters)` from
`src/scripts/metadata-filters.ts` (same code in
`src/scripts/test-filter-queries.ts`): a present `dateRange` becomes
`date_str: {$gte: start, $lte: end}` (and the other date keys are then
ignored); otherwise the date keys are copied as equalities
(`Object.assign`); the metadata keys are copied as equalities; `null` is
returned when the assembled object has no keys. -/
def buildFilterExpression (df : Option DateFilters) (mf : Option MetadataFilters) :
    Option FilterExpr :=
  let f1 : FilterExpr :=
    match df with
    | none => {}
    | some d =>
      match d.dateRange with
      | some (s, e) => { date_str := some (.between s e) }
      | none => { date_str := d.date_str.map .eq, month := d.month,
                  year := d.year, day := d.day }
  let f2 : FilterExpr :=
    match mf with
    | none => f1
    | some m => { f1 with environment := m.environment, status := m.status,
                          is_correct := m.is_correct }
  if f2 = {} then none else some f2

/-- One conjunct of the Retrieve stage's `$and` filter: a key/value
equality, in the insertion order the handler uses. -/
inductive StepPred where
  | year (n : Nat)
  | month (n : Nat)
  | day (n : Nat)
  | date_str (s : String)
  | environment (s : String)
  | status (s : String)
deriving Repr, DecidableEq

/-- The inline `buildFilterExpression` of the Retrieve stage
(`src/steps/pinecone-retrieval.step.ts`): copies only the `year`, `month`,
`day`, `date_str` date keys and the `environment`, `status` metadata keys
when present (so a `dateRange` and `is_correct` are silently dropped),
wraps the collected equalities in an explicit `{$and: [...]}` in insertion
order, and returns `undefined` when no key was collected. -/
def stepBuildFilterExpression (df : Option DateFilters) (mf : Option MetadataFilters) :
    Option (List StepPred) :=
  let dl : List StepPred :=
    match df with
    | none => []
    | some d =>
      (d.year.map StepPred.year).toList ++ (d.month.map StepPred.month).toList ++
      (d.day.map StepPred.day).toList ++ (d.date_str.map StepPred.date_str).toList
  let ml : List StepPred :=
    match mf with
    | none => []
    | some m =>
      (m.environment.map StepPred.environment).toList ++
      (m.status.map StepPred.status).toList
  let all := dl ++ ml
  if all.isEmpty then none else some all

/-! ### Retrieve stage (`src/steps/pinecone-retrieval.step.ts`) -/

/-- The metadata object stored on a Pinecone match: each field is a key
that may be absent (JS `undefined`). -/
structure MatchMetadata where
  input : Option String := none
  output : Option String := none
  created_at : Option String := none
  problem : Option String := none
  solution : Option String := none
  type : Option String := none
deriving Repr, DecidableEq

/-- One match returned by the vector store; `metadata` itself may be absent
and `score` is the store's similarity number (carried, never computed on,
so modelled as an integer stand-in for the JS number). -/
structure VecMatch where
  metadata : Option MatchMetadata := none
  score : Int := 0
deriving Repr, DecidableEq

/-- The item the Retrieve stage builds from one match: the six metadata
fields copied verbatim (an absent field stays absent) plus the score. -/
structure ContextItem where
  input : Option String := none
  output : Option String := none
  created_at : Option String := none
  problem : Option String := none
  solution : Option String := none
  type : Option String := none
  score : Int := 0
deriving Repr, DecidableEq

/-- The body of the `results.matches?.map(...)` callback: reads
`match.metadata` (throwing a `TypeError` when it is absent, since the code
dereferences it without a guard) and copies each field without defaulting. -/
def mapMatch (m : VecMatch) : Except String ContextItem :=
  match m.metadata with
  | none => .error "TypeError: cannot read properties of undefined"
  | some md => .ok { input := md.input, output := md.output,
                     created_at := md.created_at, problem := md.problem,
                     solution := md.solution, type := md.type, score := m.score }

/-- `results.matches?.map(...)` followed by `context || []`: an absent
`matches` yields the empty list, a present one is mapped item by item with
any thrown error propagating to the handler's catch. -/
def mapMatches : Option (List VecMatch) → Except String (List ContextItem)
  | none => .ok []
  | some ms => ms.mapM mapMatch

/-- The Retrieve stage's input payload (its zod schema). -/
structure RetrievalInput where
  originalMessage : String
  processedMessage : String
  timestamp : String
  dateFilters : Option DateFilters := none
  metadataFilters : Option MetadataFilters := none
  flowId : Option String := none
deriving Repr, DecidableEq

/-- Outcomes of the Retrieve stage's external calls: the embedding call may
throw; the vector query may throw or return a response whose `matches` key
is absent. -/
structure RetrievalWorld where
  embedResult : Except String (List Int)
  queryResult : Except String (Option (List VecMatch))
deriving Repr, DecidableEq

/-- The payload the Retrieve stage emits on `context-retrieved`; on the
catch path the `dateFilters`/`metadataFilters` keys are omitted. -/
structure RetrievalEmit where
  originalMessage : String
  processedMessage : String
  timestamp : String
  context : List ContextItem
  dateFilters : Option DateFilters := none
  metadataFilters : Option MetadataFilters := none
  flowId : Option String := none
deriving Repr, DecidableEq

/-- The Retrieve stage handler: embeds the processed message, builds the
inline filter expression, queries the store, maps the matches; any error
thrown anywhere in the try block falls to the catch, which still emits with
`context: []` and the same flow id. -/
def retrievalHandler (w : RetrievalWorld) (i : RetrievalInput) : RetrievalEmit :=
  let onError : RetrievalEmit :=
    { originalMessage := i.originalMessage, processedMessage := i.processedMessage,
      timestamp := i.timestamp, context := [], flowId := i.flowId }
  match w.embedResult with
  | .error _ => onError
  | .ok _ =>
    let _filter := stepBuildFilterExpression i.dateFilters i.metadataFilters
    match w.queryResult with
    | .error _ => onError
    | .ok matches? =>
      match mapMatches matches? with
      | .error _ => onError
      | .ok ctx =>
        { originalMessage := i.originalMessage, processedMessage := i.processedMessage,
          timestamp := i.timestamp, context := ctx, dateFilters := i.dateFilters,
          metadataFilters := i.metadataFilters, flowId := i.flowId }

/-- The Retrieve stage fails internally exactly when the embedding call
throws, the vector query throws, or some returned match lacks a metadata
object. -/
def retrievalFails (w : RetrievalWorld) : Prop :=
  (∃ e, w.embedResult = .error e) ∨ (∃ e, w.queryResult = .error e) ∨
  (∃ ms e, w.queryResult = .ok ms ∧ mapMatches ms = .error e)

instance (w : RetrievalWorld) : Decidable (retrievalFails w) := by
  unfold retrievalFails
  rcases w with ⟨er, qr⟩
  rcases er with e | v
  · exact .isTrue (Or.inl ⟨e, rfl⟩)
  · rcases qr with e | ms
    · exact .isTrue (Or.inr (Or.inl ⟨e, rfl⟩))
    · rcases h : mapMatches ms with e | ctx
      · exact .isTrue (Or.inr (Or.inr ⟨ms, e, rfl, h⟩))
      · refine .isFalse ?_
        rintro (⟨e, he⟩ | ⟨e, he⟩ | ⟨ms2, e, hms, he⟩) <;> simp_all

/-! ### Generate stage (`src/steps/openai-generation.step.ts`) -/

/-- A chat-completion message as the stage reads it: `content` may be
`null`. -/
structure ChatMessage where
  content : Option String := none
deriving Repr, DecidableEq

/-- One element of the provider's `choices` list; `message` may be absent
(the code reads it with `?.`). -/
structure Choice where
  message : Option ChatMessage := none
deriving Repr, DecidableEq

/-- The fixed fallback of `generateResponse` for a present choice with no
usable content (the `|| "..."` default). -/
def genFallback : String :=
  "I apologize, but I couldn't generate a response. Please try again."

/-- The fixed fallback the Generate stage's catch block emits. -/
def genErrorFallback : String :=
  "I apologize, but I encountered an error while generating a response. Please try again later."

/-- Outcome of the one completion call the Generate stage issues: the call
may throw, or return a `choices` list. -/
structure GenWorld where
  completionResult : Except String (List Choice)
deriving Repr, DecidableEq

/-- `generateResponse` from the Generate stage: reads
`response.choices[0].message?.content || fallback`. An empty `choices`
list makes `choices[0]` undefined, so the unguarded `.message` access
throws a `TypeError` (only `message` has optional chaining); a present
first choice yields its content, defaulting to the fixed fallback when the
message or its content is absent or the content is the empty string (JS
falsiness of `""`). -/
def generateResponse (w : GenWorld) : Except String String :=
  match w.completionResult with
  | .error e => .error e
  | .ok [] => .error "TypeError: cannot read properties of undefined"
  | .ok (c :: _) =>
    .ok (match c.message with
      | none => genFallback
      | some m =>
        match m.content with
        | none => genFallback
        | some s => if s = "" then genFallback else s)

/-- The Generate stage's input payload. -/
structure GenInput where
  originalMessage : String
  processedMessage : String
  timestamp : String
  context : Option (List ContextItem) := none
  flowId : Option String := none
deriving Repr, DecidableEq

/-- The payload the Generate stage emits on `response-generated`; `error`
is recorded only on the catch path. -/
structure GenEmit where
  originalMessage : String
  processedMessage : String
  timestamp : String
  response : String
  context : Option (List ContextItem) := none
  error : Option String := none
  flowId : Option String := none
deriving Repr, DecidableEq

/-- The Generate stage handler: formats the context, calls
`generateResponse`, and emits the answer; any thrown error falls to the
catch, which emits the error-fallback string with the error message
recorded and the same flow id. -/
def generationHandler (w : GenWorld) (i : GenInput) : GenEmit :=
  match generateResponse w with
  | .ok resp =>
    { originalMessage := i.originalMessage, processedMessage := i.processedMessage,
      timestamp := i.timestamp, response := resp, context := i.context,
      flowId := i.flowId }
  | .error e =>
    { originalMessage := i.originalMessage, processedMessage := i.processedMessage,
      timestamp := i.timestamp, response := genErrorFallback,
      error := some e, flowId := i.flowId }

/-! ### ExtractFilters stage (the LLM filter-extraction step) -/

/-- The parsed filter object the LLM extraction step expects
(`filterSchema`). -/
structure FilterResponse where
  dateFilters : Option DateFilters := none
  metadataFilters : Option MetadataFilters := none
  extractedQuery : String := ""
deriving Repr, DecidableEq

/-- Outcomes of the extraction step's externals: whether the OpenAI key is
configured (a missing key makes the handler throw before calling the
provider), the completion call's outcome, and the result of `JSON.parse`
on the returned content (`none` = the parse threw). -/
structure ExtractWorld where
  hasApiKey : Bool := true
  llmResult : Except String (List Choice) := .ok []
  parsed : Option FilterResponse := none
deriving Repr, DecidableEq

/-- `extractFilters` from the LLM filter-extraction step: calls the
provider (a throw propagates to the handler's catch); on a well-formed
response with a first choice carrying a message, parses the content — on
parse success it overwrites `extractedQuery` with the input message and
returns the object, on parse failure or an empty/invalid response it
returns `{dateFilters: undefined, metadataFilters: undefined,
extractedQuery: msg}`. -/
def extractFilters (w : ExtractWorld) (msg : String) : Except String FilterResponse :=
  match w.llmResult with
  | .error e => .error e
  | .ok [] => .ok { extractedQuery := msg }
  | .ok (c :: _) =>
    match c.message with
    | none => .ok { extractedQuery := msg }
    | some _ =>
      match w.parsed with
      | none => .ok { extractedQuery := msg }
      | some r => .ok { r with extractedQuery := msg }

/-- The extraction stage's input payload. -/
structure ExtractInput where
  originalMessage : String
  processedMessage : String
  timestamp : String
  flowId : Option String := none
deriving Repr, DecidableEq

/-- The payload the extraction stage emits on `fetch-context`; the catch
path omits the filter keys. -/
structure ExtractEmit where
  originalMessage : String
  processedMessage : String
  timestamp : String
  dateFilters : Option DateFilters := none
  metadataFilters : Option MetadataFilters := none
  flowId : Option String := none
deriving Repr, DecidableEq

/-- The extraction stage handler: throws when the API key is missing, runs
`extractFilters`, and emits the extracted filters with
`processedMessage: extractedFilters.extractedQuery || input.processedMessage`
(JS `||`, so an empty extracted query falls back); any thrown error falls
to the catch, which emits the original processed message, no filters, and
the same flow id. -/
def extractHandler (w : ExtractWorld) (i : ExtractInput) : ExtractEmit :=
  let onError : ExtractEmit :=
    { originalMessage := i.originalMessage, processedMessage := i.processedMessage,
      timestamp := i.timestamp, flowId := i.flowId }
  if !w.hasApiKey then onError
  else
    match extractFilters w i.processedMessage with
    | .error _ => onError
    | .ok r =>
      { originalMessage := i.originalMessage,
        processedMessage := if r.extractedQuery = "" then i.processedMessage
                            else r.extractedQuery,
        timestamp := i.timestamp, dateFilters := r.dateFilters,
        metadataFilters := r.metadataFilters, flowId := i.flowId }

/-! ### Preprocess stage and trace-session close -/

/-- The Preprocess stage's input payload (no correlation id yet). -/
structure PreprocessInput where
  message : String
  timestamp : Option String := none
deriving Repr, DecidableEq

/-- Outcomes external to the Preprocess handler: the generated flow id, the
clock value used when the input has no timestamp, and whether the traced
preprocessing call throws. -/
structure PreprocessWorld where
  generatedId : String
  nowIso : String
  preprocessThrows : Bool := false
deriving Repr, DecidableEq

/-- The payload Preprocess emits on `preprocess-complete`. -/
structure PreprocessEmit where
  originalMessage : String
  processedMessage : String
  timestamp : String
  flowId : Option String := none
deriving Repr, DecidableEq

/-- JS `message.trim()`: strip leading and trailing whitespace. -/
def jsTrim (s : String) : String := s.trim

/-- The Preprocess stage handler: generates a flow id, trims the message,
and emits; if preprocessing throws, the catch emits the untrimmed original
message — both paths carry the freshly generated flow id. -/
def preprocessHandler (w : PreprocessWorld) (i : PreprocessInput) : PreprocessEmit :=
  let ts := i.timestamp.getD w.nowIso
  if w.preprocessThrows then
    { originalMessage := i.message, processedMessage := i.message,
      timestamp := ts, flowId := some w.generatedId }
  else
    { originalMessage := i.message, processedMessage := jsTrim i.message,
      timestamp := ts, flowId := some w.generatedId }

/-- The observable state of the tracing backend: the set of closed flow
ids, as a membership-deduplicated list. -/
def closeSession (f : String) (s : List String) : List String :=
  if f ∈ s then s else f :: s

/-- `endAgentTracingHandit(flowId)` from `src/utils/handit-tracing.ts`,
acting on the backend state: with no flow id it returns immediately; with
one it asks the backend to end the session inside a try/catch, so a backend
failure (`backendThrows`) leaves the state unchanged and is only logged.
The function's return type carries no error: nothing propagates. -/
def endAgentTracingHandit (backendThrows : Bool) (flowId : Option String)
    (s : List String) : List String :=
  match flowId with
  | none => s
  | some f => if backendThrows then s else closeSession f s

/-- The Flow Completion stage handler (`src/steps/flow-completion.step.ts`)
acting on the backend state: closes the trace session when the input
carries a flow id, inside its own try/catch. -/
def completionHandler (backendThrows : Bool) (flowId : Option String)
    (s : List String) : List String :=
  match flowId with
  | none => s
  | some f => endAgentTracingHandit backendThrows (some f) s

/-! ### Helper lemmas -/

/-- Closing an already-closed session changes nothing. -/
theorem closeSession_idem (f : String) (s : List String) :
    closeSession f (closeSession f s) = closeSession f s := by
  unfold closeSession
  split
  · simp_all
  · simp [List.mem_cons]

/-! ### Claim theorems -/

/-- C1: the claim states that a query containing "incorrect" or "wrong"
yields `is_correct = false`. The code checks `includes('correct')` first,
and "incorrect" contains "correct" as a substring, so a query containing
"incorrect" gets `is_correct = true`; the subsequent `includes('incorrect')`
test is unreachable. Only "wrong" (which does not contain "correct")
reaches the `false` branch. This evaluation exhibits the divergence at the
failing input. -/
theorem extractMetadata_incorrect_bug :
    extractMetadataFilters "show me incorrect responses" =
      some { environment := none, status := none, is_correct := some true } ∧
    extractMetadataFilters "show me wrong responses" =
      some { environment := none, status := none, is_correct := some false } ∧
    extractMetadataFilters "show me responses" = none := by
  decide

/-- C2: whenever any error is raised during the Retrieve stage's processing
(the embedding call throwing, the vector query throwing, or the match
mapping throwing on a metadata-less match), the stage catches it and still
emits a well-formed payload whose `context` field is the empty list, with
the message fields and the correlation id preserved, so the flow continues
to the Generate stage. -/
theorem retrieval_error_emits_empty_context (w : RetrievalWorld) (i : RetrievalInput)
    (h : retrievalFails w) :
    (retrievalHandler w i).context = [] ∧
    (retrievalHandler w i).processedMessage = i.processedMessage ∧
    (retrievalHandler w i).originalMessage = i.originalMessage ∧
    (retrievalHandler w i).flowId = i.flowId := by
  rcases w with ⟨er, qr⟩
  rcases er with e | v
  · exact ⟨rfl, rfl, rfl, rfl⟩
  · rcases qr with e | ms
    · exact ⟨rfl, rfl, rfl, rfl⟩
    · rcases hm : mapMatches ms with e | ctx
      · simp [retrievalHandler, hm]
      · exfalso
        rcases h with ⟨e, he⟩ | ⟨e, he⟩ | ⟨ms2, e, hms, he⟩ <;> simp_all

/-- Witness for C2 at a concrete world where the embedding call throws. -/
theorem retrieval_error_emits_empty_context_witness :
    (retrievalHandler ⟨.error "boom", .ok none⟩
        ⟨"hi", "hi", "t", none, none, some "flow-1"⟩).context = [] ∧
    (retrievalHandler ⟨.error "boom", .ok none⟩
        ⟨"hi", "hi", "t", none, none, some "flow-1"⟩).flowId = some "flow-1" := by
  have h := retrieval_error_emits_empty_context ⟨.error "boom", .ok none⟩
    ⟨"hi", "hi", "t", none, none, some "flow-1"⟩ (Or.inl ⟨"boom", rfl⟩)
  exact ⟨h.1, h.2.2.2⟩

/-- C3 counterexample: when the completion provider returns an empty
`choices` list, `generateResponse` does not return the fixed fallback as a
degraded-but-successful result; the unguarded `choices[0].message` access
throws, and the stage's catch emits the *error* fallback string with the
error recorded on the payload. -/
theorem generation_empty_choices_is_error :
    generateResponse ⟨.ok []⟩ =
      .error "TypeError: cannot read properties of undefined" ∧
    (generationHandler ⟨.ok []⟩ ⟨"m", "m", "t", none, some "f"⟩).response =
      genErrorFallback ∧
    (generationHandler ⟨.ok []⟩ ⟨"m", "m", "t", none, some "f"⟩).error ≠ none ∧
    genErrorFallback ≠ genFallback := by
  refine ⟨rfl, rfl, ?_, ?_⟩ <;> decide

/-- C3 (amended): when the provider returns a first choice with no usable
content (absent message, null content, or empty-string content), the stage
returns the fixed "couldn't generate" fallback as a degraded-but-successful
result with no error recorded; when the provider returns an empty choices
list the stage raises internally and the catch emits the error-fallback
string with the error recorded; in every case the stage still emits to the
downstream topic with the correlation id preserved, so the flow reaches
Completed and the trace session is still closed. -/
theorem generation_fallback_policy (w : GenWorld) (i : GenInput) :
    (∀ c rest, w.completionResult = .ok (c :: rest) →
      (c.message.bind ChatMessage.content = none ∨
       c.message.bind ChatMessage.content = some "") →
      generateResponse w = .ok genFallback ∧
      (generationHandler w i).response = genFallback ∧
      (generationHandler w i).error = none) ∧
    (w.completionResult = .ok [] →
      (generationHandler w i).response = genErrorFallback ∧
      (generationHandler w i).error ≠ none) ∧
    (generationHandler w i).flowId = i.flowId := by
  rcases w with ⟨cr⟩
  refine ⟨?_, ?_, ?_⟩
  · rintro c rest rfl hc
    rcases c with ⟨msg⟩
    rcases msg with _ | ⟨ct⟩
    · exact ⟨rfl, rfl, rfl⟩
    · rcases ct with _ | s
      · exact ⟨rfl, rfl, rfl⟩
      · rcases hc with hc | hc
        · simp at hc
        · simp only [Option.bind, Option.some.injEq] at hc
          subst hc
          exact ⟨rfl, rfl, rfl⟩
  · rintro rfl
    exact ⟨rfl, Option.some_ne_none _⟩
  · rcases cr with e | cs
    · rfl
    · rcases cs with _ | ⟨c, rest⟩
      · rfl
      · rcases c with ⟨msg⟩
        rcases msg with _ | ⟨ct⟩
        · rfl
        · rcases ct with _ | s
          · rfl
          · rfl

/-- Witness for C3's amended theorem at a concrete world whose first choice
carries a null content. -/
theorem generation_fallback_policy_witness :
    generateResponse ⟨.ok [⟨some ⟨none⟩⟩]⟩ = .ok genFallback :=
  ((generation_fallback_policy ⟨.ok [⟨some ⟨none⟩⟩]⟩
      ⟨"m", "m", "t", none, none⟩).1 ⟨some ⟨none⟩⟩ [] rfl (Or.inl rfl)).1

/-- C4: every stage of the pipeline propagates the correlation id: the
Preprocess stage stamps the freshly generated id on both its paths, and
the ExtractFilters, Retrieve and Generate stages each emit exactly the flow
id present on their input, on the normal path and on the error-fallback
path alike. -/
theorem stages_propagate_flow_id
    (pw : PreprocessWorld) (pi : PreprocessInput)
    (ew : ExtractWorld) (ei : ExtractInput)
    (rw : RetrievalWorld) (ri : RetrievalInput)
    (gw : GenWorld) (gi : GenInput) :
    (preprocessHandler pw pi).flowId = some pw.generatedId ∧
    (extractHandler ew ei).flowId = ei.flowId ∧
    (retrievalHandler rw ri).flowId = ri.flowId ∧
    (generationHandler gw gi).flowId = gi.flowId := by
  refine ⟨?_, ?_, ?_, ?_⟩
  · unfold preprocessHandler
    split <;> rfl
  · rcases hk : ew.hasApiKey with _ | _
    · simp [extractHandler, hk]
    · rcases hf : extractFilters ew ei.processedMessage with e | r <;>
        simp [extractHandler, hk, hf]
  · rcases rw with ⟨er, qr⟩
    rcases er with e | v
    · rfl
    · rcases qr with e | ms
      · rfl
      · rcases hm : mapMatches ms with e | ctx <;> simp [retrievalHandler, hm]
  · rcases hg : generateResponse gw with e | r <;> simp [generationHandler, hg]

/-- C5 counterexample: the Retrieve stage's inline filter-expression
builder does not turn a date range into an interval predicate — a filter
input consisting solely of a date range (or solely of a correctness flag)
yields "no filter", because the builder only copies the `year`, `month`,
`day`, `date_str`, `environment` and `status` keys. -/
theorem step_builder_drops_range_and_correctness :
    stepBuildFilterExpression
      (some { dateRange := some ("2023-01-01", "2023-01-07") }) none = none ∧
    stepBuildFilterExpression none (some { is_correct := some true }) = none := by
  decide

/-- C8 counterexample: a match whose metadata object is present but lacks
every optional field is mapped without error, yet the missing fields
surface as absent (`undefined`) values, not as empty strings. -/
theorem mapMatch_missing_fields_not_empty_string :
    mapMatch { metadata := some {}, score := 3 } =
      .ok { input := none, output := none, created_at := none, problem := none,
            solution := none, type := none, score := 3 } ∧
    mapMatch { metadata := some {}, score := 3 } ≠
      .ok { input := some "", output := some "", created_at := some "",
            problem := some "", solution := some "", type := some "", score := 3 } := by
  decide

/-- C8 (amended): the Retriever's match-to-ContextItem mapping copies each
optional metadata field verbatim, so a missing field surfaces as an absent
(`undefined`) value rather than an empty string, and the mapping never
raises for a missing field; only an entirely missing metadata object
raises, and the stage's catch-all then converts that into the
empty-context fallback emit, so no match shape is fatal for the stage. -/
theorem mapMatch_copies_fields_verbatim (md : MatchMetadata) (sc : Int)
    (v : List Int) (i : RetrievalInput) :
    mapMatch { metadata := some md, score := sc } =
      .ok { input := md.input, output := md.output, created_at := md.created_at,
            problem := md.problem, solution := md.solution, type := md.type,
            score := sc } ∧
    (∃ e, mapMatch { metadata := none, score := sc } = .error e) ∧
    (retrievalHandler ⟨.ok v, .ok (some [{ metadata := none, score := sc }])⟩ i).context
      = [] := by
  refine ⟨rfl, ⟨_, rfl⟩, ?_⟩
  have hm : mapMatches (some [({ metadata := none, score := sc } : VecMatch)]) =
      .error "TypeError: cannot read properties of undefined" := rfl
  simp [retrievalHandler, hm]

/-- C9: the trace-session close operation is total (its catch swallows any
backend failure, so it returns a state and never raises), is a no-op when
no correlation id is supplied, and is idempotent: a second call with the
same id under the same backend behaviour leaves the closed-session state
exactly where the first call put it, both for the utility itself and for
the Flow Completion handler that invokes it. -/
theorem endTrace_idempotent_total (b : Bool) (id : Option String) (f : String)
    (s : List String) :
    endAgentTracingHandit b id (endAgentTracingHandit b id s) =
      endAgentTracingHandit b id s ∧
    endAgentTracingHandit b none s = s ∧
    completionHandler b (some f) (completionHandler b (some f) s) =
      completionHandler b (some f) s := by
  refine ⟨?_, rfl, ?_⟩
  · rcases id with _ | g
    · rfl
    · rcases b with _ | _
      · simp [endAgentTracingHandit, closeSession_idem]
      · rfl
  · rcases b with _ | _
    · simp [completionHandler, endAgentTracingHandit, closeSession_idem]
    · rfl

/-- C10: on every successful LLM filter-extraction call the parsed result's
`extractedQuery` is overwritten with the original input message before
being returned (discarding any LLM query rewriting), and consequently the
query text the stage emits to the Retrieve stage always equals the
preprocessed input query — on the success, parse-failure and error paths
alike. -/
theorem extractedQuery_overwritten (w : ExtractWorld) (msg : String)
    (i : ExtractInput) :
    (∀ r, extractFilters w msg = .ok r → r.extractedQuery = msg) ∧
    (extractHandler w i).processedMessage = i.processedMessage := by
  constructor
  · intro r hr
    rcases w with ⟨hk, lr, p⟩
    rcases lr with e | cs
    · simp [extractFilters] at hr
    · rcases cs with _ | ⟨c, rest⟩
      · simp [extractFilters] at hr
        simp [← hr]
      · rcases c with ⟨m⟩
        rcases m with _ | mm
        · simp [extractFilters] at hr
          simp [← hr]
        · rcases p with _ | r0 <;>
          · simp [extractFilters] at hr
            simp [← hr]
  · rcases hk : w.hasApiKey with _ | _
    · simp [extractHandler, hk]
    · rcases hf : extractFilters w i.processedMessage with e | r
      · simp [extractHandler, hk, hf]
      · have hq : r.extractedQuery = i.processedMessage := by
          rcases w with ⟨hk2, lr, p⟩
          rcases lr with e2 | cs
          · simp [extractFilters] at hf
          · rcases cs with _ | ⟨c, rest⟩
            · simp [extractFilters] at hf
              simp [← hf]
            · rcases c with ⟨m⟩
              rcases m with _ | mm
              · simp [extractFilters] at hf
                simp [← hf]
              · rcases p with _ | r0 <;>
                · simp [extractFilters] at hf
                  simp [← hf]
        simp [extractHandler, hk, hf, hq]

/-- Witness for C10 at a concrete world where the LLM returns a rewritten
query, which the code discards in favour of the input message. -/
theorem extractedQuery_overwritten_witness :
    ({ dateFilters := none, metadataFilters := none,
       extractedQuery := "hello" } : FilterResponse).extractedQuery = "hello" :=
  (extractedQuery_overwritten
      ⟨true, .ok [⟨some ⟨some "json"⟩⟩], some ⟨none, none, "rewritten"⟩⟩
      "hello" ⟨"a", "hello", "t", none⟩).1
    { dateFilters := none, metadataFilters := none, extractedQuery := "hello" } rfl

/-- The keyword-scan fold realizes a last-match-wins search: it equals the
first match over the reversed keyword list, falling back to the
accumulator. -/
theorem foldl_scan (p : String → Bool) (keys : List String) (acc : Option String) :
    keys.foldl (fun a k => if p k then some k else a) acc =
      (keys.reverse.find? p).or acc := by
  induction keys generalizing acc with
  | nil => simp
  | cons k t ih =>
    simp only [List.foldl_cons, List.reverse_cons, List.find?_append, ih]
    rcases h : t.reverse.find? p with _ | v
    · by_cases hp : p k <;> simp [List.find?, hp]
    · simp

/-- A keyword scan yields the last keyword (in declared order) contained in
the query. -/
theorem scanKeywords_eq_last (lq : String) (keys : List String) :
    scanKeywords lq keys = keys.reverse.find? (fun k => strIncludes lq k) := by
  unfold scanKeywords
  rw [foldl_scan]
  rcases h : keys.reverse.find? (fun k => strIncludes lq k) with _ | v <;> simp [h]

/-- C6 counterexample: a query containing both "production" and "staging"
gets `environment = "staging"` — the last matching keyword in the declared
order — not "production", the first, as the claim states. -/
theorem extractMetadata_not_first_match :
    extractMetadataFilters "production staging" =
      some { environment := some "staging", status := none, is_correct := none } ∧
    extractMetadataFilters "production staging" ≠
      some { environment := some "production", status := none, is_correct := none } := by
  decide

/-- C6 (amended): when a query contains more than one environment keyword
(or more than one status keyword), the extractor sets that category's field
to the *last* matching keyword in the declared keyword order — each scan
loop overwrites the field without stopping — with case-insensitive
substring matching; equivalently, the field equals the first match over the
reversed keyword list. -/
theorem extractMetadata_last_match_wins (q : String) (f : MetadataFilters)
    (h : extractMetadataFilters q = some f) :
    f.environment =
      environments.reverse.find? (fun k => strIncludes (jsToLower q) k) ∧
    f.status = statuses.reverse.find? (fun k => strIncludes (jsToLower q) k) := by
  unfold extractMetadataFilters at h
  dsimp only at h
  repeat' split at h
  all_goals
    first
      | (cases h
         exact ⟨scanKeywords_eq_last _ _, scanKeywords_eq_last _ _⟩)
      | cases h

/-- Witness for C6's amended theorem at a query carrying two environment
keywords. -/
theorem extractMetadata_last_match_wins_witness :
    ({ environment := some "staging", status := none,
       is_correct := none } : MetadataFilters).environment =
      environments.reverse.find?
        (fun k => strIncludes (jsToLower "production staging") k) :=
  (extractMetadata_last_match_wins "production staging"
      { environment := some "staging", status := none, is_correct := none }
      (by decide)).1

/-- C5 (amended): the claim holds of the reference builder in
`src/scripts/metadata-filters.ts` — a date range becomes the interval
predicate `{$gte: start, $lte: end}` on `date_str` (overriding the other
date keys), exact date/month/year/day and every metadata field including
correctness become equality predicates combined conjunctively, and "no
filter" (`null`) is returned exactly when zero predicates are present —
but not of the Retrieve stage's inline builder, which copies only the
`year`/`month`/`day`/`date_str` and `environment`/`status` equality keys
(silently dropping a date range and the correctness flag), wraps them in
an explicit `$and`, and returns no filter exactly when none of those six
keys is present. -/
theorem builders_characterization (df : DateFilters) (mf : MetadataFilters)
    (s e : String) :
    (buildFilterExpression (some { df with dateRange := some (s, e) }) (some mf) =
      some { date_str := some (.between s e), environment := mf.environment,
             status := mf.status, is_correct := mf.is_correct }) ∧
    (df.dateRange = none →
      buildFilterExpression (some df) (some mf) =
        if df.date_str = none ∧ df.month = none ∧ df.year = none ∧ df.day = none ∧
           mf.environment = none ∧ mf.status = none ∧ mf.is_correct = none
        then none
        else some { date_str := df.date_str.map .eq, month := df.month,
                    year := df.year, day := df.day, environment := mf.environment,
                    status := mf.status, is_correct := mf.is_correct }) ∧
    buildFilterExpression none none = none ∧
    (stepBuildFilterExpression (some df) (some mf) =
      stepBuildFilterExpression (some { df with dateRange := none })
        (some { mf with is_correct := none })) ∧
    (stepBuildFilterExpression (some df) (some mf) = none ↔
      df.year = none ∧ df.month = none ∧ df.day = none ∧ df.date_str = none ∧
      mf.environment = none ∧ mf.status = none) := by
  rcases df with ⟨ds, mo, yr, dy, dr⟩
  rcases mf with ⟨env, st, ic⟩
  refine ⟨?_, ?_, rfl, rfl, ?_⟩
  · simp [buildFilterExpression, FilterExpr.mk.injEq]
  · rintro rfl
    rcases ds with _ | ds <;> rcases mo with _ | mo <;> rcases yr with _ | yr <;>
      rcases dy with _ | dy <;> rcases env with _ | env <;> rcases st with _ | st <;>
      rcases ic with _ | ic <;>
      simp [buildFilterExpression, FilterExpr.mk.injEq]
  · rcases ds with _ | ds <;> rcases mo with _ | mo <;> rcases yr with _ | yr <;>
      rcases dy with _ | dy <;> rcases env with _ | env <;> rcases st with _ | st <;>
      simp [stepBuildFilterExpression]

/-- Witness for C5's amended theorem at the spec's end-to-end pair of an
exact date and a status filter. -/
theorem builders_characterization_witness :
    buildFilterExpression (some { date_str := some "2023-05-15" })
        (some { status := some "failed" }) =
      some { date_str := some (.eq "2023-05-15"), status := some "failed" } := by
  have h := (builders_characterization { date_str := some "2023-05-15" }
      { status := some "failed" } "x" "y").2.1 rfl
  simpa using h

/-- C7: a query containing an ISO-date-shaped substring (`YYYY-MM-DD`)
yields exactly that (leftmost) date as the `date_str` filter with no other
date predicate set; the produced categories are mutually exclusive (an
exact/relative date excludes month, year and range; a range excludes the
rest; a month excludes date and range, with `year` only ever set alongside
`month` or alone); and extraction stops at the first matching pattern in
the priority order exact date > "yesterday" > "today" > "last week" >
month name > bare year. -/
theorem extractDate_iso_and_priority (clock : Clock) (q : String) :
    (∀ d, firstIso q.data = some d →
      extractDateFilters clock q = some { date_str := some d }) ∧
    (∀ df, extractDateFilters clock q = some df →
      (df.date_str.isSome → df.month = none ∧ df.year = none ∧ df.dateRange = none) ∧
      (df.dateRange.isSome → df.date_str = none ∧ df.month = none ∧ df.year = none) ∧
      (df.month.isSome → df.date_str = none ∧ df.dateRange = none) ∧
      (df.year.isSome → df.month.isSome ∨ (df.date_str = none ∧ df.dateRange = none))) ∧
    (firstIso q.data = none →
      (strIncludes (jsToLower q) "yesterday" = true →
        extractDateFilters clock q = some { date_str := some clock.yesterdayStr }) ∧
      (strIncludes (jsToLower q) "yesterday" = false →
       strIncludes (jsToLower q) "today" = true →
        extractDateFilters clock q = some { date_str := some clock.todayStr }) ∧
      (strIncludes (jsToLower q) "yesterday" = false →
       strIncludes (jsToLower q) "today" = false →
       strIncludes (jsToLower q) "last week" = true →
        extractDateFilters clock q =
          some { dateRange := some (clock.lastWeekStartStr, clock.todayStr) }) ∧
      (strIncludes (jsToLower q) "yesterday" = false →
       strIncludes (jsToLower q) "today" = false →
       strIncludes (jsToLower q) "last week" = false →
        (∀ m, firstMonth (jsToLower q) = some m →
          extractDateFilters clock q =
            some { month := some m, year := firstYear q }) ∧
        (firstMonth (jsToLower q) = none →
          extractDateFilters clock q =
            (firstYear q).map fun y => { year := some y }))) := by
  refine ⟨?_, ?_, ?_⟩
  · intro d hd
    simp [extractDateFilters, hd]
  · intro df h
    rcases hI : firstIso q.data with _ | d
    · rcases h1 : strIncludes (jsToLower q) "yesterday" with _ | _
      · rcases h2 : strIncludes (jsToLower q) "today" with _ | _
        · rcases h3 : strIncludes (jsToLower q) "last week" with _ | _
          · rcases hM : firstMonth (jsToLower q) with _ | m
            · rcases hY : firstYear q with _ | y
              · simp [extractDateFilters, hI, h1, h2, h3, hM, hY] at h
              · simp [extractDateFilters, hI, h1, h2, h3, hM, hY] at h
                subst h
                simp
            · simp [extractDateFilters, hI, h1, h2, h3, hM] at h
              subst h
              simp
          · simp [extractDateFilters, hI, h1, h2, h3] at h
            subst h
            simp
        · simp [extractDateFilters, hI, h1, h2] at h
          subst h
          simp
      · simp [extractDateFilters, hI, h1] at h
        subst h
        simp
    · simp [extractDateFilters, hI] at h
      subst h
      simp
  · intro hI
    refine ⟨?_, ?_, ?_, ?_⟩
    · intro h1
      simp [extractDateFilters, hI, h1]
    · intro h1 h2
      simp [extractDateFilters, hI, h1, h2]
    · intro h1 h2 h3
      simp [extractDateFilters, hI, h1, h2, h3]
    · intro h1 h2 h3
      constructor
      · intro m hM
        simp [extractDateFilters, hI, h1, h2, h3, hM]
      · intro hM
        rcases hY : firstYear q with _ | y <;>
          simp [extractDateFilters, hI, h1, h2, h3, hM, hY]

/-- Witness for C7 at a query that also contains a month name and a year:
the exact ISO date still wins and nothing else is set. -/
theorem extractDate_iso_and_priority_witness :
    extractDateFilters ⟨"2025-06-10", "2025-06-09", "2025-06-03"⟩
        "errors from 2023-05-15 in march 2024" =
      some { date_str := some "2023-05-15" } :=
  (extractDate_iso_and_priority ⟨"2025-06-10", "2025-06-09", "2025-06-03"⟩
      "errors from 2023-05-15 in march 2024").1 "2023-05-15" (by decide)

end AgentHub
